import Mathlib

/-!
Verification of the charging-simulator negotiation engine.

The repository ships two variants of the engine:
* the app engine in `src/unnamed/part_000` (`estimateCharging`,
  `isStandardCompatible`, `getConnectorCompatibility`) over the record
  types of `src/src/types.ts`;
* a second single-file variant embedded in the repository documentation
  (`computeNegotiatedPower`, `estimateChargeTimeMinutes`), with its own
  standard enumeration and record types (suffixed `B` below).

All JavaScript numbers are modelled as exact rationals (`ℚ`).  The calls
`Number(x.toFixed(k))` and `Math.round(x)` are modelled as round-half-up
at the k-th decimal (`roundTo`) and at the integer (`jsRound`); for the
non-negative values these programs produce this agrees with JavaScript.
`Math.min(a, b, c, Infinity)` is modelled as `min (min a b) c`, since a
`min` with infinity is the identity.  Division in `ℚ` is total with
`x / 0 = 0` where JavaScript would give `Infinity`; no theorem below
depends on a division by zero.
-/

/-- Round-half-up at the `digits`-th decimal place, modelling
`Number(x.toFixed(digits))`. -/
def roundTo (digits : ℕ) (q : ℚ) : ℚ :=
  ((⌊q * 10 ^ digits + 1 / 2⌋ : ℤ) : ℚ) / 10 ^ digits

/-- `Math.round`, half rounds up (towards +∞). -/
def jsRound (q : ℚ) : ℤ := ⌊q + 1 / 2⌋

/-! ### Data model of the app engine (`src/src/types.ts`) -/

/-- The `Standard` union type of `types.ts`: "USB PD 3.1 EPR",
"USB PD 3.0 PPS", "USB PD 3.0", "QC 3.0", "Apple 2.4A", "USB BC 1.2". -/
inductive Standard
  | pd31epr
  | pd30pps
  | pd30
  | qc30
  | apple24
  | bc12
deriving DecidableEq

/-- `AdapterPort = "USB-C" | "USB-A"`. -/
inductive AdapterPort
  | usbC
  | usbA
deriving DecidableEq

/-- The four `CableConnector` strings. -/
inductive CableConnector
  | usbCtoUsbC
  | usbAtoUsbC
  | usbCtoLightning
  | usbAtoLightning
deriving DecidableEq

/-- `DeviceConnector = "USB-C" | "Lightning"`. -/
inductive DeviceConnector
  | usbC
  | lightning
deriving DecidableEq

/-- `cable.connector.includes("USB-C")` on the connector strings. -/
def CableConnector.includesUsbC : CableConnector → Bool
  | .usbCtoUsbC => true
  | .usbAtoUsbC => true
  | .usbCtoLightning => true
  | .usbAtoLightning => false

/-- `cable.connector.includes("USB-A")` on the connector strings. -/
def CableConnector.includesUsbA : CableConnector → Bool
  | .usbCtoUsbC => false
  | .usbAtoUsbC => true
  | .usbCtoLightning => false
  | .usbAtoLightning => true

/-- `cable.connector.includes("Lightning")` on the connector strings. -/
def CableConnector.includesLightning : CableConnector → Bool
  | .usbCtoUsbC => false
  | .usbAtoUsbC => false
  | .usbCtoLightning => true
  | .usbAtoLightning => true

/-- `AdapterSpec` of `types.ts`. -/
structure AdapterSpec where
  name : String
  maxW : ℚ
  maxV : ℚ
  maxA : ℚ
  standards : List Standard
  ports : List AdapterPort
  notes : Option String
deriving DecidableEq

/-- `CableSpec` of `types.ts`. -/
structure CableSpec where
  name : String
  maxW : ℚ
  maxV : ℚ
  maxA : ℚ
  connector : CableConnector
  epr : Bool
  notes : Option String
deriving DecidableEq

/-- `DeviceSpec` of `types.ts` (note: no `maxW` field; the engine derives
the device wattage limit as `maxV * maxA`). -/
structure DeviceSpec where
  name : String
  recommendedW : ℚ
  maxV : ℚ
  maxA : ℚ
  standards : List Standard
  connector : DeviceConnector
  batteryWh : ℚ
  notes : Option String
deriving DecidableEq

/-- Message keys used by the app engine's structured diagnostics. -/
inductive MessageKey
  | adapterLacksUsbC
  | adapterLacksUsbA
  | deviceNeedsUsbC
  | deviceNeedsLightning
  | adapterNoStandard
  | deviceNoStandard
  | usbACableNoPd
  | eprRequiresCable
  | eprRequiresVoltage
  | bottleneckAdapterCaps
  | bottleneckCableCaps
  | bottleneckDeviceCurve
  | bottleneckEprCable
  | bottleneckUsbAPd
  | actionUpgradeAdapter
  | actionHigherRatedCable
  | actionUseEprCable
  | actionSwitchUsbC
  | actionLowerExpectations
deriving DecidableEq

/-- `MessageDescriptor`: a key plus numeric interpolation values. -/
structure MessageDescriptor where
  key : MessageKey
  values : List (String × ℚ)
deriving DecidableEq

/-- `SimulationResult` of `types.ts`. -/
structure SimulationResult where
  standard : Standard
  estimatedW : ℚ
  estimatedV : ℚ
  estimatedA : ℚ
  meetsRecommended : Bool
  estimatedTimeHours : ℚ
  bottlenecks : List MessageDescriptor
  nextActions : List MessageDescriptor
  incompatibilities : List MessageDescriptor
deriving DecidableEq

/-- `StandardSelection = "Auto" | Standard`. -/
inductive StandardSelection
  | auto
  | force (s : Standard)
deriving DecidableEq

/-- The fixed `STANDARD_PRIORITY` list of the app engine. -/
def STANDARD_PRIORITY : List Standard :=
  [.pd31epr, .pd30pps, .pd30, .qc30, .apple24, .bc12]

/-! ### App engine: compatibility checker -/

/-- `StandardCompatibility` result record. -/
structure StandardCompatibility where
  compatible : Bool
  reasons : List MessageDescriptor

/-- `getConnectorCompatibility` from `src/unnamed/part_000`: connector
shape rules, each appending a distinct reason. -/
def getConnectorCompatibility (adapter : AdapterSpec) (cable : CableSpec)
    (device : DeviceSpec) : StandardCompatibility :=
  let reasons : List MessageDescriptor :=
    (if cable.connector.includesUsbC && !(adapter.ports.contains .usbC) then
      [⟨.adapterLacksUsbC, []⟩] else []) ++
    (if cable.connector.includesUsbA && !(adapter.ports.contains .usbA) then
      [⟨.adapterLacksUsbA, []⟩] else []) ++
    (if device.connector == .usbC && !cable.connector.includesUsbC then
      [⟨.deviceNeedsUsbC, []⟩] else []) ++
    (if device.connector == .lightning && !cable.connector.includesLightning then
      [⟨.deviceNeedsLightning, []⟩] else [])
  { compatible := reasons.isEmpty, reasons := reasons }

/-- `isStandardAllowedOnUsbA` from `src/unnamed/part_000`. -/
def isStandardAllowedOnUsbA (standard : Standard) : Bool :=
  standard == .apple24 || standard == .bc12 || standard == .qc30

/-- `isStandardCompatible` from `src/unnamed/part_000`: all rules are
evaluated and every fired rule appends its reason. -/
def isStandardCompatible (standard : Standard) (adapter : AdapterSpec)
    (cable : CableSpec) (device : DeviceSpec) : StandardCompatibility :=
  let connectorCompatibility := getConnectorCompatibility adapter cable device
  let reasons : List MessageDescriptor :=
    (if !connectorCompatibility.compatible then connectorCompatibility.reasons else []) ++
    (if !(adapter.standards.contains standard) then [⟨.adapterNoStandard, []⟩] else []) ++
    (if !(device.standards.contains standard) then [⟨.deviceNoStandard, []⟩] else []) ++
    (if cable.connector.includesUsbA && !isStandardAllowedOnUsbA standard then
      [⟨.usbACableNoPd, []⟩] else []) ++
    (if standard == .pd31epr && !cable.epr then [⟨.eprRequiresCable, []⟩] else []) ++
    (if standard == .pd31epr && decide (min adapter.maxV device.maxV < 28) then
      [⟨.eprRequiresVoltage, []⟩] else [])
  { compatible := reasons.isEmpty, reasons := reasons }

/-! ### App engine: standard selection and electrical negotiation -/

/-- `candidateStandards`: priority-ordered standards supported by both
adapter and device. -/
def candidateStandards (adapter : AdapterSpec) (device : DeviceSpec) : List Standard :=
  STANDARD_PRIORITY.filter
    (fun s => adapter.standards.contains s && device.standards.contains s)

/-- `autoStandard`: first fully compatible candidate, falling back to
"USB BC 1.2" (the `?? "USB BC 1.2"` in the source). -/
def autoStandard (adapter : AdapterSpec) (cable : CableSpec)
    (device : DeviceSpec) : Standard :=
  ((candidateStandards adapter device).find?
    (fun s => (isStandardCompatible s adapter cable device).compatible)).getD .bc12

/-- The standard actually evaluated: the auto pick for "Auto", the forced
standard otherwise. -/
def chosenStandard (adapter : AdapterSpec) (cable : CableSpec)
    (device : DeviceSpec) (selection : StandardSelection) : Standard :=
  match selection with
  | .auto => autoStandard adapter cable device
  | .force s => s

/-- `deviceMaxW` in `estimateCharging`: the device wattage ceiling derived
as `device.maxV * device.maxA`. -/
def deviceMaxW (device : DeviceSpec) : ℚ := device.maxV * device.maxA

/-- `effectiveV` in `estimateCharging`:
`Math.min(adapter.maxV, cable.maxV, device.maxV, clampVoltage)` where
`clampVoltage` is 5 over a USB-A path and `Infinity` otherwise. -/
def effectiveV (adapter : AdapterSpec) (cable : CableSpec)
    (device : DeviceSpec) : ℚ :=
  if cable.connector.includesUsbA then
    min (min (min adapter.maxV cable.maxV) device.maxV) 5
  else
    min (min adapter.maxV cable.maxV) device.maxV

/-- `effectiveA` in `estimateCharging`. -/
def effectiveA (adapter : AdapterSpec) (cable : CableSpec)
    (device : DeviceSpec) : ℚ :=
  min (min adapter.maxA cable.maxA) device.maxA

/-- `effectiveW` in `estimateCharging`:
`Math.min(adapter.maxW, cable.maxW, deviceMaxW, effectiveV * effectiveA)`. -/
def effectiveW (adapter : AdapterSpec) (cable : CableSpec)
    (device : DeviceSpec) : ℚ :=
  min (min (min adapter.maxW cable.maxW) (deviceMaxW device))
    (effectiveV adapter cable device * effectiveA adapter cable device)

/-- `estimateCharging` from `src/unnamed/part_000`: the full negotiation
and estimation engine. -/
def estimateCharging (adapter : AdapterSpec) (cable : CableSpec)
    (device : DeviceSpec) (selection : StandardSelection) : SimulationResult :=
  let standard := chosenStandard adapter cable device selection
  let compatibility := isStandardCompatible standard adapter cable device
  let incompatibilities := compatibility.reasons
  let usesUsbA := cable.connector.includesUsbA
  let effV := effectiveV adapter cable device
  let effA := effectiveA adapter cable device
  let effW := effectiveW adapter cable device
  let meetsRecommended := decide (device.recommendedW * 0.95 ≤ effW)
  let energyNeededWh := device.batteryWh * 0.6
  let taperFactor : ℚ :=
    if device.recommendedW ≤ effW then 1.15 else if effW < 15 then 1.4 else 1.3
  let estimatedTimeHours := if 0 < effW then energyNeededWh / effW * taperFactor else 0
  let bottlenecks : List MessageDescriptor :=
    (if adapter.maxW < device.recommendedW then
      [⟨.bottleneckAdapterCaps, [("maxW", adapter.maxW)]⟩] else []) ++
    (if cable.maxW < device.recommendedW then
      [⟨.bottleneckCableCaps, [("maxW", cable.maxW)]⟩] else []) ++
    (if deviceMaxW device < device.recommendedW then
      [⟨.bottleneckDeviceCurve, []⟩] else []) ++
    (if standard == .pd31epr && !cable.epr then [⟨.bottleneckEprCable, []⟩] else []) ++
    (if usesUsbA && !isStandardAllowedOnUsbA standard then
      [⟨.bottleneckUsbAPd, []⟩] else [])
  let nextActions : List MessageDescriptor :=
    (if adapter.maxW < device.recommendedW then [⟨.actionUpgradeAdapter, []⟩] else []) ++
    (if cable.maxW < device.recommendedW then [⟨.actionHigherRatedCable, []⟩] else []) ++
    (if standard == .pd31epr && !cable.epr then [⟨.actionUseEprCable, []⟩] else []) ++
    (if usesUsbA then [⟨.actionSwitchUsbC, []⟩] else []) ++
    (if !meetsRecommended then [⟨.actionLowerExpectations, []⟩] else [])
  { standard := standard
    estimatedW := roundTo 1 effW
    estimatedV := roundTo 1 effV
    estimatedA := roundTo 2 effA
    meetsRecommended := meetsRecommended
    estimatedTimeHours := roundTo 2 estimatedTimeHours
    bottlenecks := bottlenecks
    nextActions := nextActions
    incompatibilities := incompatibilities }

/-! ### Documentation-variant engine (`computeNegotiatedPower`) -/

/-- The `Standard` union of the documentation variant (seven members). -/
inductive StandardB
  | pd31epr
  | pd3020
  | pdpps
  | qc4plus
  | qc30
  | apple24
  | bc12
deriving DecidableEq

/-- `AdapterSpec` of the documentation variant (`maxA` optional). -/
structure AdapterSpecB where
  name : String
  maxW : ℚ
  maxV : ℚ
  maxA : Option ℚ
  standards : List StandardB
  notes : Option String
deriving DecidableEq

/-- `CableSpec` of the documentation variant. -/
structure CableSpecB where
  name : String
  connector : CableConnector
  maxA : ℚ
  maxV : ℚ
  eMarked : Option Bool
  usbVersion : Option String
  notes : Option String
deriving DecidableEq

/-- `DeviceSpec` of the documentation variant: battery capacity either
directly in Wh or as mAh plus nominal voltage. -/
structure DeviceSpecB where
  name : String
  recommendedW : ℚ
  maxW : ℚ
  maxV : ℚ
  maxA : Option ℚ
  batteryWh : Option ℚ
  batteryMAh : Option ℚ
  nominalV : Option ℚ
  standards : List StandardB
  notes : Option String
deriving DecidableEq

/-- The per-part limiting flags of `computeNegotiatedPower`. -/
structure NegotiationLimits where
  adapter : Bool
  cable : Bool
  device : Bool
deriving DecidableEq

/-- The result record of `computeNegotiatedPower`. -/
structure NegotiationResult where
  standard : Option StandardB
  voltage : ℚ
  current : ℚ
  power : ℚ
  limits : NegotiationLimits
  reason : Option String
deriving DecidableEq

/-- `intersect(a, b)` from the documentation variant. -/
def intersect (a b : List StandardB) : List StandardB :=
  a.filter (fun x => b.contains x)

/-- `clamp(n, min, max) = Math.max(min, Math.min(max, n))`. -/
def clamp (n mn mx : ℚ) : ℚ := max mn (min mx n)

/-- The fixed priority order of the documentation variant. -/
def STANDARD_PRIORITY_B : List StandardB :=
  [.pd31epr, .pd3020, .pdpps, .qc4plus, .qc30, .apple24, .bc12]

/-- `chooseBestStandard`: first priority-list member among the options. -/
def chooseBestStandard (options : List StandardB) : Option StandardB :=
  STANDARD_PRIORITY_B.find? (fun s => options.contains s)

/-- The `viable` filter predicate of `computeNegotiatedPower`: PD-family
standards are excluded over USB-A, EPR requires a 48V/5A cable, PPS
requires a C-to-C cable. -/
def isViableOnCable (cable : CableSpecB) (s : StandardB) : Bool :=
  if (s == .pd31epr || s == .pd3020 || s == .pdpps)
      && (cable.connector == .usbAtoUsbC || cable.connector == .usbAtoLightning) then
    false
  else if s == .pd31epr && (decide (cable.maxV < 48) || decide (cable.maxA < 5)) then
    false
  else if s == .pdpps && !(cable.connector == .usbCtoUsbC) then
    false
  else
    true

/-- The standard `computeNegotiatedPower` evaluates:
`forcedStandard ?? chooseBestStandard(viable)`. -/
def chosenStandardB (cable : CableSpecB) (available : List StandardB)
    (forcedStandard : Option StandardB) : Option StandardB :=
  match forcedStandard with
  | some s => some s
  | none => chooseBestStandard (available.filter (isViableOnCable cable))

/-- The no-common-standard result of `computeNegotiatedPower`. -/
def noCommonStandardResult : NegotiationResult :=
  { standard := none
    voltage := 5
    current := 0
    power := 0
    limits := ⟨true, true, true⟩
    reason := some "共通の充電規格がありません" }

/-- `targetV` of `computeNegotiatedPower`: standard-specific voltage
floors and ceilings applied to `Math.min(adapter.maxV, device.maxV,
cable.maxV)`. -/
def targetVoltage (adapter : AdapterSpecB) (cable : CableSpecB)
    (device : DeviceSpecB) (chosen : StandardB) : ℚ :=
  match chosen with
  | .pd31epr => clamp (min adapter.maxV (min device.maxV cable.maxV)) 20 48
  | .pd3020 => clamp (min adapter.maxV (min device.maxV cable.maxV)) 5 20
  | .pdpps => clamp (min adapter.maxV (min device.maxV cable.maxV)) 5 21
  | .qc4plus => min 12 (min adapter.maxV (min device.maxV cable.maxV))
  | .qc30 => min 12 (min adapter.maxV (min device.maxV cable.maxV))
  | .apple24 => 5
  | .bc12 => 5

/-- The electrical negotiation of `computeNegotiatedPower` once a
standard is chosen: current limits (derived from wattage when absent),
power clamp, and epsilon-tolerant limiting-part flags. -/
def negotiateFor (adapter : AdapterSpecB) (cable : CableSpecB)
    (device : DeviceSpecB) (chosen : StandardB) : NegotiationResult :=
  let targetV := targetVoltage adapter cable device chosen
  let adapterMaxA := adapter.maxA.getD (adapter.maxW / targetV)
  let deviceMaxA := device.maxA.getD (device.maxW / targetV)
  let cableMaxA := cable.maxA
  let current := min (min adapterMaxA deviceMaxA) cableMaxA
  let power := min (min (current * targetV) adapter.maxW) device.maxW
  let eps : ℚ := 1 / 1000000
  { standard := some chosen
    voltage := targetV
    current := current
    power := power
    limits :=
      { adapter := decide (adapter.maxW ≤ power + eps)
          || decide (adapterMaxA ≤ current + eps) || decide (adapter.maxV < targetV)
        cable := decide (cableMaxA ≤ current + eps) || decide (cable.maxV < targetV)
        device := decide (device.maxW ≤ power + eps)
          || decide (deviceMaxA ≤ current + eps) || decide (device.maxV < targetV) }
    reason := none }

/-- `computeNegotiatedPower` from the documentation variant. -/
def computeNegotiatedPower (adapter : AdapterSpecB) (cable : CableSpecB)
    (device : DeviceSpecB) (forcedStandard : Option StandardB) : NegotiationResult :=
  match chosenStandardB cable (intersect adapter.standards device.standards)
      forcedStandard with
  | none => noCommonStandardResult
  | some chosen => negotiateFor adapter cable device chosen

/-! ### Documentation-variant charge-time estimator -/

/-- JavaScript truthiness of an optional number: defined and nonzero. -/
def truthy : Option ℚ → Bool
  | none => false
  | some x => x != 0

/-- The computation `estimateChargeTimeMinutes` performs once the battery
capacity is resolved: 60% slice, size-dependent efficiency, small-power
floor, minutes rounded. -/
def chargeTimeCore (powerW : ℚ) (device : DeviceSpecB) (capacityWh : ℚ) : Option ℤ :=
  let sliceWh := capacityWh * 0.6
  let eff : ℚ := if capacityWh < 25 then 0.75 else 0.85
  let effectiveW := min powerW device.maxW * eff
  if effectiveW ≤ 0.1 then none
  else some (jsRound (sliceWh / effectiveW * 60))

/-- `estimateChargeTimeMinutes` from the documentation variant.  The
capacity resolution uses JavaScript truthiness: `if (device.batteryWh)`
and `if (device.batteryMAh && device.nominalV)`, so a field that is
defined but zero falls through. -/
def estimateChargeTimeMinutes (powerW : ℚ) (device : DeviceSpecB) : Option ℤ :=
  if truthy device.batteryWh then
    chargeTimeCore powerW device (device.batteryWh.getD 0)
  else if truthy device.batteryMAh && truthy device.nominalV then
    chargeTimeCore powerW device
      (device.batteryMAh.getD 0 * device.nominalV.getD 0 / 1000)
  else
    none

/-! ### Helper lemmas -/

theorem roundTo_mono (digits : ℕ) {a b : ℚ} (h : a ≤ b) :
    roundTo digits a ≤ roundTo digits b := by
  unfold roundTo
  have hpow : (0 : ℚ) < 10 ^ digits := by positivity
  have hfl : (⌊a * 10 ^ digits + 1 / 2⌋ : ℤ) ≤ ⌊b * 10 ^ digits + 1 / 2⌋ := by
    apply Int.floor_le_floor
    have := mul_le_mul_of_nonneg_right h hpow.le
    linarith
  have : ((⌊a * 10 ^ digits + 1 / 2⌋ : ℤ) : ℚ) ≤ ((⌊b * 10 ^ digits + 1 / 2⌋ : ℤ) : ℚ) :=
    Int.cast_le.mpr hfl
  exact div_le_div_of_nonneg_right this hpow.le

theorem roundTo_one_le_add (q : ℚ) : roundTo 1 q ≤ q + 1 / 20 := by
  unfold roundTo
  have hfl : ((⌊q * 10 ^ 1 + 1 / 2⌋ : ℤ) : ℚ) ≤ q * 10 ^ 1 + 1 / 2 :=
    Int.floor_le _
  rw [div_le_iff₀ (by norm_num : (0 : ℚ) < 10 ^ 1)]
  nlinarith

theorem clamp_le_max (n lo hi : ℚ) : clamp n lo hi ≤ max n lo := by
  unfold clamp
  exact max_le (le_max_right _ _) ((min_le_right _ _).trans (le_max_left _ _))

theorem find?_filter_eq {α : Type} (p q : α → Bool) (l : List α) :
    (l.filter q).find? p = l.find? (fun a => q a && p a) := by
  induction l with
  | nil => rfl
  | cons a l ih =>
    by_cases hq : q a
    · by_cases hp : p a <;> simp [List.filter_cons, List.find?, hq, hp, ih]
    · simp [List.filter_cons, List.find?, hq, ih]

/-! ### Claim theorems -/

/-- C2.  For every input whose cable connector includes a USB-A end, the
negotiated voltage — both the internal `effectiveV` and the returned
`estimatedV` — is at most 5 V, regardless of the adapter's and device's
voltage capabilities and regardless of the chosen standard. -/
theorem usbA_cable_voltage_ceiling (adapter : AdapterSpec) (cable : CableSpec)
    (device : DeviceSpec) (selection : StandardSelection)
    (h : cable.connector.includesUsbA = true) :
    effectiveV adapter cable device ≤ 5
    ∧ (estimateCharging adapter cable device selection).estimatedV ≤ 5 := by
  have hv : effectiveV adapter cable device ≤ 5 := by
    unfold effectiveV
    rw [h]
    simp
  refine ⟨hv, ?_⟩
  have hlink : (estimateCharging adapter cable device selection).estimatedV
      = roundTo 1 (effectiveV adapter cable device) := rfl
  rw [hlink]
  calc roundTo 1 (effectiveV adapter cable device)
      ≤ roundTo 1 5 := roundTo_mono 1 hv
    _ = 5 := by norm_num [roundTo]

/-- Witness for C2 at the repo's USB-A-to-Lightning preset shape. -/
theorem usbA_cable_voltage_ceiling_witness :
    effectiveV ⟨"Generic 12W USB-A", 12, 5, 2.4, [.apple24, .bc12], [.usbA], none⟩
        ⟨"Apple USB-A to Lightning", 12, 5, 2.4, .usbAtoLightning, false, none⟩
        ⟨"Legacy iPad", 12, 5, 2.4, [.apple24, .bc12], .lightning, 32.4, none⟩ ≤ 5
    ∧ (estimateCharging
        ⟨"Generic 12W USB-A", 12, 5, 2.4, [.apple24, .bc12], [.usbA], none⟩
        ⟨"Apple USB-A to Lightning", 12, 5, 2.4, .usbAtoLightning, false, none⟩
        ⟨"Legacy iPad", 12, 5, 2.4, [.apple24, .bc12], .lightning, 32.4, none⟩
        (.force .apple24)).estimatedV ≤ 5 :=
  usbA_cable_voltage_ceiling _ _ _ (.force .apple24) rfl

/-- C4.  Forcing "USB PD 3.1 EPR" with a cable that lacks the enhanced
marker still yields a result negotiated for that standard, whose
incompatibility list is exactly the full list of violated rules reported
by `isStandardCompatible`, is non-empty, and contains the
EPR-cable-required reason. -/
theorem epr_without_marked_cable_flagged (adapter : AdapterSpec)
    (cable : CableSpec) (device : DeviceSpec) (h : cable.epr = false) :
    (estimateCharging adapter cable device (.force .pd31epr)).standard = .pd31epr
    ∧ (estimateCharging adapter cable device (.force .pd31epr)).incompatibilities
        = (isStandardCompatible .pd31epr adapter cable device).reasons
    ∧ (⟨.eprRequiresCable, []⟩ : MessageDescriptor)
        ∈ (estimateCharging adapter cable device (.force .pd31epr)).incompatibilities
    ∧ (estimateCharging adapter cable device (.force .pd31epr)).incompatibilities ≠ [] := by
  have hstd : (estimateCharging adapter cable device (.force .pd31epr)).standard
      = .pd31epr := rfl
  have hinc : (estimateCharging adapter cable device (.force .pd31epr)).incompatibilities
      = (isStandardCompatible .pd31epr adapter cable device).reasons := rfl
  have hmem : (⟨.eprRequiresCable, []⟩ : MessageDescriptor)
      ∈ (isStandardCompatible .pd31epr adapter cable device).reasons := by
    unfold isStandardCompatible
    simp only [List.mem_append, h]
    refine Or.inl (Or.inr ?_)
    simp
  refine ⟨hstd, hinc, hinc ▸ hmem, ?_⟩
  rw [hinc]
  exact List.ne_nil_of_mem hmem

/-- Witness for C4: an EPR-capable chain forced to EPR over a non-EPR
cable. -/
theorem epr_without_marked_cable_flagged_witness :
    (estimateCharging ⟨"Apple 140W", 140, 28, 5, [.pd31epr, .pd30], [.usbC], none⟩
        ⟨"Generic USB-C 3A", 60, 20, 3, .usbCtoUsbC, false, none⟩
        ⟨"MacBook Pro 16", 96, 28, 5, [.pd31epr, .pd30], .usbC, 99.6, none⟩
        (.force .pd31epr)).standard = .pd31epr
    ∧ (estimateCharging ⟨"Apple 140W", 140, 28, 5, [.pd31epr, .pd30], [.usbC], none⟩
        ⟨"Generic USB-C 3A", 60, 20, 3, .usbCtoUsbC, false, none⟩
        ⟨"MacBook Pro 16", 96, 28, 5, [.pd31epr, .pd30], .usbC, 99.6, none⟩
        (.force .pd31epr)).incompatibilities
        = (isStandardCompatible .pd31epr
            ⟨"Apple 140W", 140, 28, 5, [.pd31epr, .pd30], [.usbC], none⟩
            ⟨"Generic USB-C 3A", 60, 20, 3, .usbCtoUsbC, false, none⟩
            ⟨"MacBook Pro 16", 96, 28, 5, [.pd31epr, .pd30], .usbC, 99.6, none⟩).reasons
    ∧ (⟨.eprRequiresCable, []⟩ : MessageDescriptor)
        ∈ (estimateCharging ⟨"Apple 140W", 140, 28, 5, [.pd31epr, .pd30], [.usbC], none⟩
            ⟨"Generic USB-C 3A", 60, 20, 3, .usbCtoUsbC, false, none⟩
            ⟨"MacBook Pro 16", 96, 28, 5, [.pd31epr, .pd30], .usbC, 99.6, none⟩
            (.force .pd31epr)).incompatibilities
    ∧ (estimateCharging ⟨"Apple 140W", 140, 28, 5, [.pd31epr, .pd30], [.usbC], none⟩
        ⟨"Generic USB-C 3A", 60, 20, 3, .usbCtoUsbC, false, none⟩
        ⟨"MacBook Pro 16", 96, 28, 5, [.pd31epr, .pd30], .usbC, 99.6, none⟩
        (.force .pd31epr)).incompatibilities ≠ [] :=
  epr_without_marked_cable_flagged _ _ _ rfl

/-- C5.  The negotiated power `effectiveW` never exceeds the adapter's
wattage limit, the cable's wattage limit, the device's (derived) wattage
limit `maxV * maxA`, nor the product of the negotiated voltage and
current; the returned `estimatedW` is exactly that value rounded to one
decimal. -/
theorem negotiated_power_bounds (adapter : AdapterSpec) (cable : CableSpec)
    (device : DeviceSpec) (selection : StandardSelection) :
    effectiveW adapter cable device ≤ adapter.maxW
    ∧ effectiveW adapter cable device ≤ cable.maxW
    ∧ effectiveW adapter cable device ≤ deviceMaxW device
    ∧ effectiveW adapter cable device
        ≤ effectiveV adapter cable device * effectiveA adapter cable device
    ∧ (estimateCharging adapter cable device selection).estimatedW
        = roundTo 1 (effectiveW adapter cable device) := by
  unfold effectiveW
  refine ⟨?_, ?_, ?_, ?_, rfl⟩
  · exact (min_le_left _ _).trans ((min_le_left _ _).trans (min_le_left _ _))
  · exact (min_le_left _ _).trans ((min_le_left _ _).trans (min_le_right _ _))
  · exact (min_le_left _ _).trans (min_le_right _ _)
  · exact min_le_right _ _

/-- C9.  The negotiation function is deterministic and pure: two calls
with identical adapter, cable, device, and selection inputs return
identical `SimulationResult` values (field-for-field; `SimulationResult`
equality is structural). -/
theorem estimateCharging_deterministic
    (a₁ a₂ : AdapterSpec) (c₁ c₂ : CableSpec) (d₁ d₂ : DeviceSpec)
    (s₁ s₂ : StandardSelection)
    (ha : a₁ = a₂) (hc : c₁ = c₂) (hd : d₁ = d₂) (hs : s₁ = s₂) :
    estimateCharging a₁ c₁ d₁ s₁ = estimateCharging a₂ c₂ d₂ s₂ := by
  rw [ha, hc, hd, hs]

/-- Witness for C9 at a concrete preset-shaped input. -/
theorem estimateCharging_deterministic_witness :
    estimateCharging ⟨"Apple 20W", 20, 9, 2.22, [.pd30, .apple24], [.usbC], none⟩
        ⟨"Generic USB-C 3A", 60, 20, 3, .usbCtoUsbC, false, none⟩
        ⟨"iPhone 15 Pro", 23, 9, 3, [.pd30, .pd30pps, .apple24], .usbC, 12.7, none⟩
        .auto
      = estimateCharging ⟨"Apple 20W", 20, 9, 2.22, [.pd30, .apple24], [.usbC], none⟩
        ⟨"Generic USB-C 3A", 60, 20, 3, .usbCtoUsbC, false, none⟩
        ⟨"iPhone 15 Pro", 23, 9, 3, [.pd30, .pd30pps, .apple24], .usbC, 12.7, none⟩
        .auto :=
  estimateCharging_deterministic _ _ _ _ _ _ _ _ rfl rfl rfl rfl

/-! ### C6 machinery: first-match on the concrete priority list -/

/-- Rank of a standard in `STANDARD_PRIORITY` (0 = most capable). -/
def priorityRank : Standard → ℕ
  | .pd31epr => 0
  | .pd30pps => 1
  | .pd30 => 2
  | .qc30 => 3
  | .apple24 => 4
  | .bc12 => 5

/-- The first of six flags, tagged with the corresponding standard in
priority order; abstracts `STANDARD_PRIORITY.find?`. -/
def firstTrue (b₁ b₂ b₃ b₄ b₅ b₆ : Bool) : Option Standard :=
  if b₁ then some .pd31epr
  else if b₂ then some .pd30pps
  else if b₃ then some .pd30
  else if b₄ then some .qc30
  else if b₅ then some .apple24
  else if b₆ then some .bc12
  else none

/-- Evaluate the six flags at a given standard. -/
def evalFlags (b₁ b₂ b₃ b₄ b₅ b₆ : Bool) : Standard → Bool
  | .pd31epr => b₁
  | .pd30pps => b₂
  | .pd30 => b₃
  | .qc30 => b₄
  | .apple24 => b₅
  | .bc12 => b₆

theorem evalFlags_eq (f : Standard → Bool) (t : Standard) :
    evalFlags (f .pd31epr) (f .pd30pps) (f .pd30) (f .qc30) (f .apple24) (f .bc12) t
      = f t := by
  cases t <;> rfl

theorem find?_STANDARD_PRIORITY (f : Standard → Bool) :
    STANDARD_PRIORITY.find? f
      = firstTrue (f .pd31epr) (f .pd30pps) (f .pd30) (f .qc30) (f .apple24) (f .bc12) := by
  unfold STANDARD_PRIORITY firstTrue
  cases h₁ : f .pd31epr <;> cases h₂ : f .pd30pps <;> cases h₃ : f .pd30 <;>
    cases h₄ : f .qc30 <;> cases h₅ : f .apple24 <;> cases h₆ : f .bc12 <;>
    simp [List.find?, h₁, h₂, h₃, h₄, h₅, h₆]

theorem firstTrue_isSome (b₁ b₂ b₃ b₄ b₅ b₆ : Bool) (t : Standard)
    (ht : evalFlags b₁ b₂ b₃ b₄ b₅ b₆ t = true) :
    (firstTrue b₁ b₂ b₃ b₄ b₅ b₆).isSome = true := by
  revert ht
  cases t <;> cases b₁ <;> cases b₂ <;> cases b₃ <;> cases b₄ <;> cases b₅ <;>
    cases b₆ <;> decide

theorem firstTrue_sat (b₁ b₂ b₃ b₄ b₅ b₆ : Bool) (y : Standard)
    (hy : firstTrue b₁ b₂ b₃ b₄ b₅ b₆ = some y) :
    evalFlags b₁ b₂ b₃ b₄ b₅ b₆ y = true := by
  revert hy
  cases y <;> cases b₁ <;> cases b₂ <;> cases b₃ <;> cases b₄ <;> cases b₅ <;>
    cases b₆ <;> decide

theorem firstTrue_rank_min (b₁ b₂ b₃ b₄ b₅ b₆ : Bool) (y t : Standard)
    (hy : firstTrue b₁ b₂ b₃ b₄ b₅ b₆ = some y)
    (ht : evalFlags b₁ b₂ b₃ b₄ b₅ b₆ t = true) :
    priorityRank y ≤ priorityRank t := by
  revert hy ht
  cases y <;> cases t <;> cases b₁ <;> cases b₂ <;> cases b₃ <;> cases b₄ <;>
    cases b₅ <;> cases b₆ <;> decide

/-- C6.  Under "Auto" selection, whenever some standard is both mutually
supported (in the adapter's and device's standards sets) and fully
compatible, the selected standard is itself mutually supported and
compatible and ranks at least as high in the fixed priority order as any
such standard `t`. -/
theorem auto_selects_highest_priority (adapter : AdapterSpec) (cable : CableSpec)
    (device : DeviceSpec) (t : Standard)
    (hmt : (adapter.standards.contains t && device.standards.contains t) = true)
    (hct : (isStandardCompatible t adapter cable device).compatible = true) :
    ((adapter.standards.contains ((estimateCharging adapter cable device .auto).standard)
      && device.standards.contains
        ((estimateCharging adapter cable device .auto).standard)) = true)
    ∧ (isStandardCompatible ((estimateCharging adapter cable device .auto).standard)
        adapter cable device).compatible = true
    ∧ priorityRank ((estimateCharging adapter cable device .auto).standard)
        ≤ priorityRank t := by
  set P : Standard → Bool := fun s =>
    (adapter.standards.contains s && device.standards.contains s)
      && (isStandardCompatible s adapter cable device).compatible with hP
  have hPt : P t = true := by
    rw [hP]
    show ((adapter.standards.contains t && device.standards.contains t)
        && (isStandardCompatible t adapter cable device).compatible) = true
    rw [Bool.and_eq_true]
    exact ⟨hmt, hct⟩
  have hPt' : evalFlags (P .pd31epr) (P .pd30pps) (P .pd30) (P .qc30) (P .apple24)
      (P .bc12) t = true := by rw [evalFlags_eq]; exact hPt
  obtain ⟨y, hy⟩ : ∃ y,
      firstTrue (P .pd31epr) (P .pd30pps) (P .pd30) (P .qc30) (P .apple24) (P .bc12)
        = some y := by
    have := firstTrue_isSome _ _ _ _ _ _ t hPt'
    exact Option.isSome_iff_exists.mp this
  have hstd : (estimateCharging adapter cable device .auto).standard
      = autoStandard adapter cable device := rfl
  have hauto : autoStandard adapter cable device = y := by
    unfold autoStandard candidateStandards
    rw [find?_filter_eq, show (fun s => (adapter.standards.contains s
        && device.standards.contains s)
        && (isStandardCompatible s adapter cable device).compatible) = P from rfl,
      find?_STANDARD_PRIORITY, hy]
    rfl
  have hPy : P y = true := by
    rw [← evalFlags_eq P y]
    exact firstTrue_sat _ _ _ _ _ _ y hy
  have hrank : priorityRank y ≤ priorityRank t :=
    firstTrue_rank_min _ _ _ _ _ _ y t hy hPt'
  rw [hstd, hauto]
  rw [hP] at hPy
  have hPy₂ : ((adapter.standards.contains y && device.standards.contains y)
      && (isStandardCompatible y adapter cable device).compatible) = true := hPy
  rw [Bool.and_eq_true] at hPy₂
  exact ⟨hPy₂.1, hPy₂.2, hrank⟩

/-- Witness for C6: a PD-3.0 chain where PD 3.0 is mutually supported and
compatible. -/
theorem auto_selects_highest_priority_witness :
    ((AdapterSpec.standards ⟨"Apple 20W", 20, 9, 2.22, [.pd30, .apple24], [.usbC], none⟩
        |>.contains ((estimateCharging
          ⟨"Apple 20W", 20, 9, 2.22, [.pd30, .apple24], [.usbC], none⟩
          ⟨"Generic USB-C 3A", 60, 20, 3, .usbCtoUsbC, false, none⟩
          ⟨"iPhone 15 Pro", 23, 9, 3, [.pd30, .apple24], .usbC, 12.7, none⟩
          .auto).standard))
      && (DeviceSpec.standards
          ⟨"iPhone 15 Pro", 23, 9, 3, [.pd30, .apple24], .usbC, 12.7, none⟩
        |>.contains ((estimateCharging
          ⟨"Apple 20W", 20, 9, 2.22, [.pd30, .apple24], [.usbC], none⟩
          ⟨"Generic USB-C 3A", 60, 20, 3, .usbCtoUsbC, false, none⟩
          ⟨"iPhone 15 Pro", 23, 9, 3, [.pd30, .apple24], .usbC, 12.7, none⟩
          .auto).standard)) = true)
    ∧ (isStandardCompatible ((estimateCharging
          ⟨"Apple 20W", 20, 9, 2.22, [.pd30, .apple24], [.usbC], none⟩
          ⟨"Generic USB-C 3A", 60, 20, 3, .usbCtoUsbC, false, none⟩
          ⟨"iPhone 15 Pro", 23, 9, 3, [.pd30, .apple24], .usbC, 12.7, none⟩
          .auto).standard)
        ⟨"Apple 20W", 20, 9, 2.22, [.pd30, .apple24], [.usbC], none⟩
        ⟨"Generic USB-C 3A", 60, 20, 3, .usbCtoUsbC, false, none⟩
        ⟨"iPhone 15 Pro", 23, 9, 3, [.pd30, .apple24], .usbC, 12.7, none⟩).compatible = true
    ∧ priorityRank ((estimateCharging
          ⟨"Apple 20W", 20, 9, 2.22, [.pd30, .apple24], [.usbC], none⟩
          ⟨"Generic USB-C 3A", 60, 20, 3, .usbCtoUsbC, false, none⟩
          ⟨"iPhone 15 Pro", 23, 9, 3, [.pd30, .apple24], .usbC, 12.7, none⟩
          .auto).standard) ≤ priorityRank .pd30 :=
  auto_selects_highest_priority _ _ _ .pd30 (by decide) (by decide)

/-! ### C1: voltage bound, display rounding, and legal-range clamping -/

/-- Adapter whose 19.96 V limit sits just below a display-rounding
boundary. -/
def voltEdgeAdapter : AdapterSpec :=
  ⟨"19.96V adapter", 100, 19.96, 5, [.pd30], [.usbC], none⟩

/-- Companion cable for the voltage-rounding counterexample. -/
def voltEdgeCable : CableSpec :=
  ⟨"240W cable", 240, 48, 5, .usbCtoUsbC, true, none⟩

/-- Companion device for the voltage-rounding counterexample. -/
def voltEdgeDevice : DeviceSpec :=
  ⟨"48V device", 60, 48, 5, [.pd30], .usbC, 50, none⟩

/-- C1 counterexample.  With the adapter limited to 19.96 V (cable and
device at 48 V) and the compatible standard "USB PD 3.0" chosen, the
returned `estimatedV` is 20 — strictly above the minimum 19.96 of the
three voltage limits.  No clamping excuses it: 19.96 already lies inside
the 5–20 V legal range of PD 3.0, so clamping leaves it at 19.96; the
excess comes from the one-decimal display rounding `Number(x.toFixed(1))`. -/
theorem estimatedV_exceeds_min_counterexample :
    min (min voltEdgeAdapter.maxV voltEdgeCable.maxV) voltEdgeDevice.maxV
      < (estimateCharging voltEdgeAdapter voltEdgeCable voltEdgeDevice
          (.force .pd30)).estimatedV := by
  have hlink : (estimateCharging voltEdgeAdapter voltEdgeCable voltEdgeDevice
      (.force .pd30)).estimatedV
      = roundTo 1 (effectiveV voltEdgeAdapter voltEdgeCable voltEdgeDevice) := rfl
  rw [hlink]
  norm_num [voltEdgeAdapter, voltEdgeCable, voltEdgeDevice, effectiveV,
    CableConnector.includesUsbA, roundTo, min_def]

/-- Documentation-variant legal voltage-range floor per standard, from
the spec's table: EPR negotiates 20–48 V, the other PD variants 5 V and
up, quick-charge and legacy floors at 5 V. -/
def legalFloorB : StandardB → ℚ
  | .pd31epr => 20
  | _ => 5

/-- C1 amended.  At full precision, the app engine's negotiated voltage
`effectiveV` never exceeds the minimum of the three components' voltage
limits; the returned `estimatedV` is that value rounded to one decimal
and so can exceed the minimum by at most 0.05.  The documentation
variant's `voltage` never exceeds the minimum of the three `maxV`
values except when clamping into the chosen standard's legal voltage
range raises it to the range's floor. -/
theorem negotiated_voltage_bound_amended
    (adapter : AdapterSpec) (cable : CableSpec) (device : DeviceSpec)
    (selection : StandardSelection)
    (adapterB : AdapterSpecB) (cableB : CableSpecB) (deviceB : DeviceSpecB)
    (forced : Option StandardB) (s : StandardB)
    (hs : (computeNegotiatedPower adapterB cableB deviceB forced).standard = some s) :
    effectiveV adapter cable device ≤ min (min adapter.maxV cable.maxV) device.maxV
    ∧ (estimateCharging adapter cable device selection).estimatedV
        ≤ min (min adapter.maxV cable.maxV) device.maxV + 1 / 20
    ∧ (computeNegotiatedPower adapterB cableB deviceB forced).voltage
        ≤ max (min adapterB.maxV (min deviceB.maxV cableB.maxV)) (legalFloorB s) := by
  have h1 : effectiveV adapter cable device
      ≤ min (min adapter.maxV cable.maxV) device.maxV := by
    unfold effectiveV
    split
    · exact min_le_left _ _
    · exact le_rfl
  have h2 : (estimateCharging adapter cable device selection).estimatedV
      ≤ min (min adapter.maxV cable.maxV) device.maxV + 1 / 20 := by
    have hlink : (estimateCharging adapter cable device selection).estimatedV
        = roundTo 1 (effectiveV adapter cable device) := rfl
    rw [hlink]
    calc roundTo 1 (effectiveV adapter cable device)
        ≤ effectiveV adapter cable device + 1 / 20 := roundTo_one_le_add _
      _ ≤ min (min adapter.maxV cable.maxV) device.maxV + 1 / 20 := by linarith
  refine ⟨h1, h2, ?_⟩
  have hv : computeNegotiatedPower adapterB cableB deviceB forced
      = match chosenStandardB cableB (intersect adapterB.standards deviceB.standards)
          forced with
        | none => noCommonStandardResult
        | some chosen => negotiateFor adapterB cableB deviceB chosen := rfl
  cases hch : chosenStandardB cableB (intersect adapterB.standards deviceB.standards)
      forced with
  | none =>
    rw [hv, hch] at hs
    exact absurd hs (by simp [noCommonStandardResult])
  | some chosen =>
    rw [hv, hch] at hs ⊢
    have hcs : chosen = s := by
      have : (negotiateFor adapterB cableB deviceB chosen).standard = some chosen := rfl
      rw [this] at hs
      exact Option.some.inj hs
    subst hcs
    have hvolt : (negotiateFor adapterB cableB deviceB chosen).voltage
        = targetVoltage adapterB cableB deviceB chosen := rfl
    rw [hvolt]
    cases chosen with
    | pd31epr =>
      simpa [legalFloorB, targetVoltage] using
        clamp_le_max (min adapterB.maxV (min deviceB.maxV cableB.maxV)) 20 48
    | pd3020 =>
      simpa [legalFloorB, targetVoltage] using
        clamp_le_max (min adapterB.maxV (min deviceB.maxV cableB.maxV)) 5 20
    | pdpps =>
      simpa [legalFloorB, targetVoltage] using
        clamp_le_max (min adapterB.maxV (min deviceB.maxV cableB.maxV)) 5 21
    | qc4plus =>
      simp only [legalFloorB, targetVoltage]
      exact (min_le_right _ _).trans (le_max_left _ _)
    | qc30 =>
      simp only [legalFloorB, targetVoltage]
      exact (min_le_right _ _).trans (le_max_left _ _)
    | apple24 =>
      simp only [legalFloorB, targetVoltage]
      exact le_max_right _ _
    | bc12 =>
      simp only [legalFloorB, targetVoltage]
      exact le_max_right _ _

/-- Documentation-variant inputs for the C1 witness. -/
def voltWitnessAdapterB : AdapterSpecB :=
  ⟨"Apple 20W", 20, 9, none, [.pd3020, .apple24], none⟩

/-- Documentation-variant cable for the C1 witness. -/
def voltWitnessCableB : CableSpecB :=
  ⟨"C to C 3A", .usbCtoUsbC, 3, 20, some false, some "USB 2.0", none⟩

/-- Documentation-variant device for the C1 witness. -/
def voltWitnessDeviceB : DeviceSpecB :=
  ⟨"iPhone 15 Pro", 23, 27, 9, some 3, some 12.7, none, none, [.pd3020], none⟩

/-- Witness for the amended C1 at concrete inputs with a forced PD-3.0
standard on the documentation variant. -/
theorem negotiated_voltage_bound_amended_witness :
    effectiveV voltEdgeAdapter voltEdgeCable voltEdgeDevice
      ≤ min (min voltEdgeAdapter.maxV voltEdgeCable.maxV) voltEdgeDevice.maxV
    ∧ (estimateCharging voltEdgeAdapter voltEdgeCable voltEdgeDevice .auto).estimatedV
        ≤ min (min voltEdgeAdapter.maxV voltEdgeCable.maxV) voltEdgeDevice.maxV + 1 / 20
    ∧ (computeNegotiatedPower voltWitnessAdapterB voltWitnessCableB voltWitnessDeviceB
        (some .pd3020)).voltage
        ≤ max (min voltWitnessAdapterB.maxV
            (min voltWitnessDeviceB.maxV voltWitnessCableB.maxV)) (legalFloorB .pd3020) :=
  negotiated_voltage_bound_amended voltEdgeAdapter voltEdgeCable voltEdgeDevice .auto
    voltWitnessAdapterB voltWitnessCableB voltWitnessDeviceB (some .pd3020) .pd3020 rfl

/-! ### C3: no common standard -/

/-- C3.  When the adapter's and device's standards sets are disjoint and
no standard is forced, `computeNegotiatedPower` returns the
no-common-standard result: null standard, zero power, an explanatory
reason, and all three parts flagged as limiting. -/
theorem no_common_standard_zero_result (adapterB : AdapterSpecB)
    (cableB : CableSpecB) (deviceB : DeviceSpecB)
    (h : intersect adapterB.standards deviceB.standards = []) :
    (computeNegotiatedPower adapterB cableB deviceB none).standard = none
    ∧ (computeNegotiatedPower adapterB cableB deviceB none).power = 0
    ∧ (computeNegotiatedPower adapterB cableB deviceB none).reason
        = some "共通の充電規格がありません"
    ∧ (computeNegotiatedPower adapterB cableB deviceB none).limits.adapter = true
    ∧ (computeNegotiatedPower adapterB cableB deviceB none).limits.cable = true
    ∧ (computeNegotiatedPower adapterB cableB deviceB none).limits.device = true := by
  have hch : chosenStandardB cableB (intersect adapterB.standards deviceB.standards)
      none = none := by rw [h]; rfl
  have hv : computeNegotiatedPower adapterB cableB deviceB none
      = noCommonStandardResult := by
    unfold computeNegotiatedPower
    rw [hch]
  rw [hv]
  exact ⟨rfl, rfl, rfl, rfl, rfl, rfl⟩

/-- Witness for C3: a PD-only adapter against an Apple-2.4A-only
device. -/
theorem no_common_standard_zero_result_witness :
    (computeNegotiatedPower ⟨"PD only", 35, 20, none, [.pd3020], none⟩
        ⟨"C to C", .usbCtoUsbC, 3, 20, some false, none, none⟩
        ⟨"Apple legacy", 12, 12, 5, some 2.4, some 32.4, none, none, [.apple24], none⟩
        none).standard = none
    ∧ (computeNegotiatedPower ⟨"PD only", 35, 20, none, [.pd3020], none⟩
        ⟨"C to C", .usbCtoUsbC, 3, 20, some false, none, none⟩
        ⟨"Apple legacy", 12, 12, 5, some 2.4, some 32.4, none, none, [.apple24], none⟩
        none).power = 0
    ∧ (computeNegotiatedPower ⟨"PD only", 35, 20, none, [.pd3020], none⟩
        ⟨"C to C", .usbCtoUsbC, 3, 20, some false, none, none⟩
        ⟨"Apple legacy", 12, 12, 5, some 2.4, some 32.4, none, none, [.apple24], none⟩
        none).reason = some "共通の充電規格がありません"
    ∧ (computeNegotiatedPower ⟨"PD only", 35, 20, none, [.pd3020], none⟩
        ⟨"C to C", .usbCtoUsbC, 3, 20, some false, none, none⟩
        ⟨"Apple legacy", 12, 12, 5, some 2.4, some 32.4, none, none, [.apple24], none⟩
        none).limits.adapter = true
    ∧ (computeNegotiatedPower ⟨"PD only", 35, 20, none, [.pd3020], none⟩
        ⟨"C to C", .usbCtoUsbC, 3, 20, some false, none, none⟩
        ⟨"Apple legacy", 12, 12, 5, some 2.4, some 32.4, none, none, [.apple24], none⟩
        none).limits.cable = true
    ∧ (computeNegotiatedPower ⟨"PD only", 35, 20, none, [.pd3020], none⟩
        ⟨"C to C", .usbCtoUsbC, 3, 20, some false, none, none⟩
        ⟨"Apple legacy", 12, 12, 5, some 2.4, some 32.4, none, none, [.apple24], none⟩
        none).limits.device = true :=
  no_common_standard_zero_result _ _ _ rfl

/-! ### C8: monotonicity in the component ceilings -/

/-- C8.  Raising any of the components' electrical ceilings (voltage,
current or wattage limits of adapter, cable or device) — here stated
componentwise, which subsumes raising a single ceiling — never decreases
the negotiated power, neither at full precision (`effectiveW`) nor in
the returned rounded `estimatedW`.  Inputs are assumed non-negative, as
the engine's contract requires. -/
theorem negotiated_power_monotone
    (a a' : AdapterSpec) (c c' : CableSpec) (d d' : DeviceSpec)
    (sel : StandardSelection)
    (haW : a.maxW ≤ a'.maxW) (haV : a.maxV ≤ a'.maxV) (haA : a.maxA ≤ a'.maxA)
    (hcW : c.maxW ≤ c'.maxW) (hcV : c.maxV ≤ c'.maxV) (hcA : c.maxA ≤ c'.maxA)
    (hdV : d.maxV ≤ d'.maxV) (hdA : d.maxA ≤ d'.maxA)
    (hconn : c.connector = c'.connector)
    (h0aV : 0 ≤ a.maxV) (h0cV : 0 ≤ c.maxV) (h0dV : 0 ≤ d.maxV)
    (h0aA : 0 ≤ a.maxA) (h0cA : 0 ≤ c.maxA) (h0dA : 0 ≤ d.maxA) :
    effectiveW a c d ≤ effectiveW a' c' d'
    ∧ (estimateCharging a c d sel).estimatedW
        ≤ (estimateCharging a' c' d' sel).estimatedW := by
  have hV : effectiveV a c d ≤ effectiveV a' c' d' := by
    unfold effectiveV
    rw [← hconn]
    by_cases hA : c.connector.includesUsbA = true
    · simp only [hA, if_true]
      exact min_le_min (min_le_min (min_le_min haV hcV) hdV) le_rfl
    · simp only [hA, if_false]
      exact min_le_min (min_le_min haV hcV) hdV
  have h0V : 0 ≤ effectiveV a c d := by
    unfold effectiveV
    by_cases hA : c.connector.includesUsbA = true
    · simp only [hA, if_true]
      exact le_min (le_min (le_min h0aV h0cV) h0dV) (by norm_num)
    · simp only [hA, if_false]
      exact le_min (le_min h0aV h0cV) h0dV
  have hAmp : effectiveA a c d ≤ effectiveA a' c' d' :=
    min_le_min (min_le_min haA hcA) hdA
  have h0A : 0 ≤ effectiveA a c d := le_min (le_min h0aA h0cA) h0dA
  have hVA : effectiveV a c d * effectiveA a c d
      ≤ effectiveV a' c' d' * effectiveA a' c' d' :=
    mul_le_mul hV hAmp h0A (h0V.trans hV)
  have hdw : deviceMaxW d ≤ deviceMaxW d' :=
    mul_le_mul hdV hdA h0dA (h0dV.trans hdV)
  have hW : effectiveW a c d ≤ effectiveW a' c' d' :=
    min_le_min (min_le_min (min_le_min haW hcW) hdw) hVA
  refine ⟨hW, ?_⟩
  have hl : (estimateCharging a c d sel).estimatedW = roundTo 1 (effectiveW a c d) := rfl
  have hl' : (estimateCharging a' c' d' sel).estimatedW
      = roundTo 1 (effectiveW a' c' d') := rfl
  rw [hl, hl']
  exact roundTo_mono 1 hW

/-- Witness for C8: a 20 W adapter upgraded to 30 W / 20 V / 3 A, all
other ceilings unchanged. -/
theorem negotiated_power_monotone_witness :
    effectiveW ⟨"Apple 20W", 20, 9, 2.22, [.pd30], [.usbC], none⟩
        ⟨"Generic USB-C 3A", 60, 20, 3, .usbCtoUsbC, false, none⟩
        ⟨"iPhone 15 Pro", 23, 9, 3, [.pd30], .usbC, 12.7, none⟩
      ≤ effectiveW ⟨"Upgraded 30W", 30, 20, 3, [.pd30], [.usbC], none⟩
        ⟨"Generic USB-C 3A", 60, 20, 3, .usbCtoUsbC, false, none⟩
        ⟨"iPhone 15 Pro", 23, 9, 3, [.pd30], .usbC, 12.7, none⟩
    ∧ (estimateCharging ⟨"Apple 20W", 20, 9, 2.22, [.pd30], [.usbC], none⟩
        ⟨"Generic USB-C 3A", 60, 20, 3, .usbCtoUsbC, false, none⟩
        ⟨"iPhone 15 Pro", 23, 9, 3, [.pd30], .usbC, 12.7, none⟩ .auto).estimatedW
      ≤ (estimateCharging ⟨"Upgraded 30W", 30, 20, 3, [.pd30], [.usbC], none⟩
        ⟨"Generic USB-C 3A", 60, 20, 3, .usbCtoUsbC, false, none⟩
        ⟨"iPhone 15 Pro", 23, 9, 3, [.pd30], .usbC, 12.7, none⟩ .auto).estimatedW :=
  negotiated_power_monotone _ _ _ _ _ _ .auto
    (by norm_num) (by norm_num) (by norm_num) (by norm_num) (by norm_num)
    (by norm_num) (by norm_num) (by norm_num) rfl
    (by norm_num) (by norm_num) (by norm_num) (by norm_num) (by norm_num)
    (by norm_num)

/-! ### C7: charge-time estimator and capacity resolution -/

/-- The charge-time estimator as the claim words it: battery capacity is
the directly specified watt-hour value whenever the field is PRESENT
(even if zero), else derived from milliamp-hours and nominal voltage
whenever both are present; the rest matches the code. -/
def chargeTimeClaimed (powerW : ℚ) (device : DeviceSpecB) : Option ℤ :=
  match device.batteryWh with
  | some w => chargeTimeCore powerW device w
  | none =>
    match device.batteryMAh, device.nominalV with
    | some m, some v => chargeTimeCore powerW device (m * v / 1000)
    | _, _ => none

/-- Capacity resolution as the code actually performs it (JavaScript
truthiness): the watt-hour field counts only when present and nonzero,
likewise the milliamp-hour pair. -/
def resolvedCapacityWh (device : DeviceSpecB) : Option ℚ :=
  if truthy device.batteryWh then some (device.batteryWh.getD 0)
  else if truthy device.batteryMAh && truthy device.nominalV then
    some (device.batteryMAh.getD 0 * device.nominalV.getD 0 / 1000)
  else none

/-- The amended C7 estimator: resolve capacity per `resolvedCapacityWh`
(present AND nonzero), then energy for a 60% slice divided by effective
power `min(negotiatedPower, device.maxW)` times an efficiency of 0.75
for capacities under 25 Wh else 0.85, rounded to whole minutes, null when
effective power is at or below the 0.1 W floor. -/
def chargeTimeAmended (powerW : ℚ) (device : DeviceSpecB) : Option ℤ :=
  match resolvedCapacityWh device with
  | none => none
  | some capacityWh =>
    let effectivePower :=
      min powerW device.maxW * (if capacityWh < 25 then 0.75 else 0.85)
    if effectivePower ≤ 0.1 then none
    else some (jsRound (capacityWh * 0.6 / effectivePower * 60))

/-- A device with a zero (but present) `batteryWh` field alongside a
milliamp-hour rating: the claim's presence-based resolution and the
code's truthiness-based resolution disagree here. -/
def battEdgeDevice : DeviceSpecB :=
  ⟨"zero-Wh field", 20, 30, 20, none, some 0, some 3000, some 5, [], none⟩

/-- C7 counterexample.  On `battEdgeDevice` the claim's reading
("directly specified value if present") yields capacity 0 Wh and hence
0 minutes, while the code's truthiness test skips the zero field, derives
15 Wh from 3000 mAh at 5 V, and returns 36 minutes. -/
theorem chargeTime_presence_counterexample :
    chargeTimeClaimed 20 battEdgeDevice = some 0
    ∧ estimateChargeTimeMinutes 20 battEdgeDevice = some 36
    ∧ chargeTimeClaimed 20 battEdgeDevice ≠ estimateChargeTimeMinutes 20 battEdgeDevice := by
  have h1 : chargeTimeClaimed 20 battEdgeDevice = some 0 := by
    norm_num [chargeTimeClaimed, battEdgeDevice, chargeTimeCore, jsRound, min_def]
  have h2 : estimateChargeTimeMinutes 20 battEdgeDevice = some 36 := by
    norm_num [estimateChargeTimeMinutes, battEdgeDevice, truthy, chargeTimeCore,
      jsRound, min_def]
  refine ⟨h1, h2, ?_⟩
  rw [h1, h2]
  simp

/-- C7 amended.  For every non-negative negotiated power and device, the
code's `estimateChargeTimeMinutes` computes exactly the amended
description `chargeTimeAmended` (capacity from the watt-hour field when
present and nonzero, else from the milliamp-hour pair when both present
and nonzero, else null; then the 60% slice, 0.75/0.85 efficiency,
whole-minute rounding, 0.1 W floor). -/
theorem chargeTime_amended_eq (powerW : ℚ) (device : DeviceSpecB)
    (hp : 0 ≤ powerW) :
    estimateChargeTimeMinutes powerW device = chargeTimeAmended powerW device := by
  unfold estimateChargeTimeMinutes chargeTimeAmended resolvedCapacityWh
  by_cases h1 : truthy device.batteryWh = true
  · rw [if_pos h1, if_pos h1]
    rfl
  · rw [if_neg h1, if_neg h1]
    by_cases h2 : (truthy device.batteryMAh && truthy device.nominalV) = true
    · rw [if_pos h2, if_pos h2]
      rfl
    · rw [if_neg h2, if_neg h2]

/-- Witness for the amended C7 at a concrete mAh-specified device. -/
theorem chargeTime_amended_eq_witness :
    estimateChargeTimeMinutes 20
        ⟨"Galaxy S24", 25, 45, 20, some 3, none, some 5000, some 3.85, [.pd3020], none⟩
      = chargeTimeAmended 20
        ⟨"Galaxy S24", 25, 45, 20, some 3, none, some 5000, some 3.85, [.pd3020], none⟩ :=
  chargeTime_amended_eq 20 _ (by norm_num)
